import Mathlib

/-!
Shallow embedding of the Gemini Creative Suite chat slice:
the chat-window component (`ChatWindow.tsx`) and the API service wrapper
(`geminiService`).  JavaScript strings are modelled by `String`, JS
`number` values flowing through the image-count pipeline by `Option Int`
(`none` models `NaN`), absent/`null`/`undefined` fields by `Option`, and
the local conversation store by an association list keyed by conversation
id.  Remote calls are modelled by explicit outcome parameters, so every
operation is a total function.
-/

namespace GeminiSuite

/-- The `Author` enum from `types.ts`: the originator of a message. -/
inductive Author where
  | USER
  | MODEL
deriving DecidableEq, Repr

/-- Generation parameters for an image request (`GenerationEvent['parameters']`).
`numberOfImages` is a JS number; `none` models `NaN`.  The `aspect` field is
the source's aspectRatio field. -/
structure GenParams where
  model : String
  aspect : String
  numberOfImages : Option Int
  outputMimeType : Option String
deriving DecidableEq, Repr

/-- The `MessagePart` tagged union from `types.ts`:
text, a user-uploaded image (url, base64 payload, MIME type), or an
image-generation result (result image urls, originating prompt, parameters). -/
inductive MessagePart where
  | text (text : String)
  | image (url : String) (base64 : String) (mimeType : String)
  | imageGenerationResult (images : List String) (prompt : String) (parameters : GenParams)
deriving DecidableEq, Repr

/-- A `ChatMessage` as manipulated by the view: `parts` is always present. -/
structure ChatMessage where
  id : String
  author : Author
  parts : List MessagePart
deriving DecidableEq, Repr

/-- A message as it may sit in the persisted store: a legacy message may lack
`parts` and may instead carry a scalar string `content` field.
`parts = none` models an absent (or `null`/`undefined`) field;
`content = some s` models a `content` field that is a string. -/
structure StoredMessage where
  id : String
  author : Author
  parts : Option (List MessagePart)
  content : Option String
deriving DecidableEq, Repr

/-- A `ChatConversation` record as stored by `dbService`. -/
structure Conversation where
  id : String
  title : String
  messages : List StoredMessage
  createdAt : Nat
  modelUsed : String
  isFavorite : Bool
  type : String
deriving DecidableEq, Repr

/-- The local conversation store, keyed by conversation id. -/
abbrev Store := List (String × Conversation)

/-- `dbService.getConversation(id)`: lookup by key. -/
def dbGetConversation (store : Store) (cid : String) : Option Conversation :=
  (store.find? (fun kv => kv.fst == cid)).map (fun kv => kv.snd)

/-- `dbService.addOrUpdateConversation(convo)`: keyed upsert. -/
def dbAddOrUpdate (store : Store) (convo : Conversation) : Store :=
  if (store.find? (fun kv => kv.fst == convo.id)).isSome then
    store.map (fun kv => if kv.fst == convo.id then (convo.id, convo) else kv)
  else
    store ++ [(convo.id, convo)]

/-- A view-constructed message written back to the store: it always has
`parts` and never a legacy `content` field. -/
def toStored (m : ChatMessage) : StoredMessage :=
  ⟨m.id, m.author, some m.parts, none⟩

/-- JS `a || b` on a possibly-absent string `a`: the default is taken when
the value is absent or is the empty string (both falsy in JS). -/
def jsOrString (value : Option String) (dflt : String) : String :=
  match value with
  | some s => if s = "" then dflt else s
  | none => dflt

/-- JS `s.substring(0, n)`: the first `n` characters of `s`. -/
def jsSubstring (s : String) (n : Nat) : String :=
  String.mk (s.data.take n)

/-- JS `s.trim()`: the string with leading and trailing whitespace removed. -/
def jsTrim (s : String) : String :=
  String.mk (((s.data.dropWhile (fun c => c.isWhitespace)).reverse.dropWhile
    (fun c => c.isWhitespace)).reverse)

/-- `message.parts.find(p => p.type === 'text')?.text` from `saveMessage`. -/
def firstTextPart (parts : List MessagePart) : Option String :=
  match parts.find? (fun p => match p with | .text _ => true | _ => false) with
  | some (.text t) => some t
  | _ => none

/-- The title computed for a newly created conversation in `saveMessage`:
`titleText.substring(0, 40) + (titleText.length > 40 ? '...' : '')` where
`titleText` is the first text part's content, or `'New Chat'` when there is
no text part (or, by JS `||` falsiness, when its content is empty). -/
def conversationTitle (message : ChatMessage) : String :=
  let titleText := jsOrString (firstTextPart message.parts) "New Chat"
  jsSubstring titleText 40 ++ (if 40 < titleText.length then "..." else "")

/-- The legacy-message migration applied in `loadConversation`:
a message that has `parts` is kept as is; otherwise a string `content`
field becomes a single text part, and failing that a single empty text
part is substituted. -/
def migrateMessage (msg : StoredMessage) : ChatMessage :=
  match msg.parts with
  | some ps => ⟨msg.id, msg.author, ps⟩
  | none =>
    match msg.content with
    | some s => ⟨msg.id, msg.author, [MessagePart.text s]⟩
    | none => ⟨msg.id, msg.author, [MessagePart.text ""]⟩

/-- The synthetic greeting message installed when no conversation id is set. -/
def greetingMessage : ChatMessage :=
  ⟨"initial", Author.MODEL,
   [MessagePart.text "Hello! I\x27m Gemini. How can I assist you today? You can ask me anything or generate an image!"]⟩

/-- The default chat model. -/
def defaultChatModel : String := "gemini-2.5-flash"

/-- The `loadConversation` effect of the id-change hook, restricted to the
two pieces of state the claims are about: the resulting message list and
the resulting selected model.  A `none` or empty-string id is falsy in JS. -/
def loadConversationView (conversationId : Option String) (store : Store) :
    List ChatMessage × String :=
  if conversationId.getD "" = "" then
    ([greetingMessage], defaultChatModel)
  else
    match dbGetConversation store (conversationId.getD "") with
    | some convo =>
      if convo.type = "chat" then (convo.messages.map migrateMessage, convo.modelUsed)
      else ([], defaultChatModel)
    | none => ([], defaultChatModel)

/-- Result of a `saveMessage` call: the updated conversation-id ref, the
updated store, the ids passed to the `onConversationCreated` callback, and
the returned conversation id. -/
structure SaveResult where
  convRef : Option String
  store : Store
  created : List String
  returnedId : String
deriving DecidableEq, Repr

/-- `saveMessage` from `ChatWindow.tsx`: with a falsy conversation ref it
creates a new conversation (id from the current time, title from the first
text part) and signals creation; with a truthy ref it appends the message
to the stored conversation, silently doing nothing when the conversation
is missing or is not of type chat. -/
def saveMessage (ref : Option String) (now : Nat) (model : String)
    (store : Store) (message : ChatMessage) : SaveResult :=
  if ref.getD "" = "" then
    let convoId := toString now
    let newConversation : Conversation :=
      ⟨convoId, conversationTitle message, [toStored message], now, model, false, "chat"⟩
    ⟨some convoId, dbAddOrUpdate store newConversation, [convoId], convoId⟩
  else
    let convoId := ref.getD ""
    match dbGetConversation store convoId with
    | some existingConvo =>
      if existingConvo.type = "chat" then
        ⟨ref, dbAddOrUpdate store
          { existingConvo with messages := existingConvo.messages ++ [toStored message] },
         [], convoId⟩
      else ⟨ref, store, [], convoId⟩
    | none => ⟨ref, store, [], convoId⟩

/-- A provider wire part (`Part` of the SDK): plain text or inline byte data. -/
inductive WirePart where
  | text (text : String)
  | inlineData (mimeType : String) (data : String)
deriving DecidableEq, Repr

/-- A provider wire message (`Content` of the SDK): a role and wire parts. -/
structure Content where
  role : String
  parts : List WirePart
deriving DecidableEq, Repr

/-- The filter predicate of `buildContents`:
`part.type === 'text' || part.type === 'image'`. -/
def isTextOrImagePart : MessagePart → Bool
  | .text _ => true
  | .image _ _ _ => true
  | .imageGenerationResult _ _ _ => false

/-- The reduce callback of `buildContents`: keep text parts, turn image
parts into inline data (MIME type and base64 payload), skip everything else. -/
def wireReduceStep (acc : List WirePart) (part : MessagePart) : List WirePart :=
  match part with
  | .text t => acc ++ [WirePart.text t]
  | .image _ b64 mime => acc ++ [WirePart.inlineData mime b64]
  | .imageGenerationResult _ _ _ => acc

/-- `buildContents` from `geminiService`: drops messages containing no text
or image part, then maps each remaining message to the provider wire shape
(the parts array is built by a reduce over `wireReduceStep`). -/
def buildContents (messages : List ChatMessage) : List Content :=
  (messages.filter (fun msg => msg.parts.any isTextOrImagePart)).map fun msg =>
    { role := if msg.author = Author.USER then "user" else "model",
      parts := msg.parts.foldl wireReduceStep [] }

/-- The per-part wire translation of `buildContents`, as a partial map:
text parts survive as text, image parts become inline data carrying the
MIME type and base64 payload, and every other part is dropped. -/
def wireOfPart : MessagePart → Option WirePart
  | .text t => some (WirePart.text t)
  | .image _ b64 mime => some (WirePart.inlineData mime b64)
  | .imageGenerationResult _ _ _ => none

/-- Outcome of the remote `generateContentStream` call: either a finite
sequence of delivered text fragments, or a failure after delivering a
prefix of fragments. -/
inductive RemoteOutcome where
  | ok (chunks : List String)
  | fail (delivered : List String)

/-- The apology fragment yielded by `getChatResponseStream` on failure. -/
def streamApologyText : String := "Sorry, I encountered an error. Please try again."

/-- `geminiService.getChatResponseStream`: translates the history with
`buildContents`, then yields each remote fragment; the surrounding
try/catch turns any failure into one final apology fragment, so the caller
always receives a plain list of text fragments. -/
def getChatResponseStream (messages : List ChatMessage)
    (remote : List Content → RemoteOutcome) : List String :=
  match remote (buildContents messages) with
  | .ok cs => cs
  | .fail ds => ds ++ [streamApologyText]

/-- A pending uploaded image: blob url, base64 payload, MIME type. -/
structure UploadedImage where
  url : String
  base64 : String
  mimeType : String
deriving DecidableEq, Repr

/-- The view state of `ChatWindow` relevant to the claims.  `genAspect` and
`genModel` are the generation panel's aspect-ratio and model selections;
`genNumImages` is the image count (a JS number: `none` models `NaN`). -/
structure ViewState where
  messages : List ChatMessage
  input : String
  isLoading : Bool
  model : String
  uploadedImage : Option UploadedImage
  showGenerationPanel : Bool
  genPrompt : String
  genAspect : String
  genModel : String
  genNumImages : Option Int
deriving DecidableEq, Repr

/-- The initial `useState` values of `ChatWindow`. -/
def initialViewState : ViewState :=
  ⟨[], "", false, "gemini-2.5-flash", none, false, "", "3:4",
   "imagen-3.0-generate-002", some 4⟩

/-- The guard of `handleSubmit`:
`!input.trim() && !uploadedImage || isLoading`. -/
def submitGuard (st : ViewState) : Bool :=
  (jsTrim st.input == "" && st.uploadedImage.isNone) || st.isLoading

/-- The parts of the user message built by `handleSubmit`: the uploaded
image first (when present), then the raw input text (when its trim is
nonempty). -/
def mkUserParts (input : String) (uploaded : Option UploadedImage) : List MessagePart :=
  (match uploaded with
   | some u => [MessagePart.image u.url u.base64 u.mimeType]
   | none => []) ++
  (if jsTrim input = "" then [] else [MessagePart.text input])

/-- The history `handleSubmit` hands to `getChatResponseStream`: the current
messages with the synthetic greeting (id `initial`) filtered out, plus the
new user message. -/
def submitHistory (now : Nat) (st : ViewState) : List ChatMessage :=
  st.messages.filter (fun m => m.id != "initial") ++
    [⟨toString now, Author.USER, mkUserParts st.input st.uploadedImage⟩]

/-- State of the streaming loop of `handleSubmit`: the `fullResponse`
accumulator and the current message list. -/
structure StreamState where
  fullResponse : String
  messages : List ChatMessage
deriving DecidableEq, Repr

/-- One iteration of the streaming loop: append the fragment to the
accumulator and replace the placeholder message's parts with a single text
part holding the accumulator so far. -/
def processChunk (modelMessageId : String) (st : StreamState) (chunk : String) : StreamState :=
  let fr := st.fullResponse ++ chunk
  ⟨fr, st.messages.map (fun msg =>
      if msg.id = modelMessageId then { msg with parts := [MessagePart.text fr] } else msg)⟩

/-- The whole streaming loop of `handleSubmit`, starting from an empty
accumulator. -/
def runStream (modelMessageId : String) (init : List ChatMessage)
    (chunks : List String) : StreamState :=
  chunks.foldl (processChunk modelMessageId) ⟨"", init⟩

/-- Concatenation of a fragment list in arrival order (`'' + c1 + c2 + ...`). -/
def concatChunks (chunks : List String) : String :=
  chunks.foldl (fun a c => a ++ c) ""

/-- Result of a submit/generate handler run: final view state, final
conversation ref and store, ids signalled via `onConversationCreated`, the
messages passed to `saveMessage` in order, and the image-generation
requests issued to the service. -/
structure SubmitOutcome where
  state : ViewState
  convRef : Option String
  store : Store
  created : List String
  saved : List ChatMessage
  genRequests : List (String × GenParams)
deriving DecidableEq, Repr

/-- `handleSubmit` from `ChatWindow.tsx`: guard, build and persist the user
message, install an empty placeholder model message, run the streaming
loop, then persist the final model message. -/
def handleSubmit (now : Nat) (remote : List Content → RemoteOutcome)
    (ref : Option String) (store : Store) (st : ViewState) : SubmitOutcome :=
  if submitGuard st then ⟨st, ref, store, [], [], []⟩
  else
    let userMessage : ChatMessage :=
      ⟨toString now, Author.USER, mkUserParts st.input st.uploadedImage⟩
    let updatedMessages := submitHistory now st
    let st1 := { st with
      messages := updatedMessages
      input := ""
      uploadedImage := none
      isLoading := true }
    let save1 := saveMessage ref now st.model store userMessage
    let mid := toString (now + 1)
    let placeholder : ChatMessage := ⟨mid, Author.MODEL, [MessagePart.text ""]⟩
    let chunks := getChatResponseStream updatedMessages remote
    let streamed := runStream mid (st1.messages ++ [placeholder]) chunks
    let finalModelMessage : ChatMessage :=
      ⟨mid, Author.MODEL, [MessagePart.text streamed.fullResponse]⟩
    let save2 := saveMessage save1.convRef now st.model save1.store finalModelMessage
    ⟨{ st1 with messages := streamed.messages, isLoading := false },
     save2.convRef, save2.store, save1.created ++ save2.created,
     [userMessage, finalModelMessage], []⟩

/-- Outcome of the remote `generateImages` call: the `imageBytes` of each
generated image (possibly the empty list), or a thrown error. -/
inductive ImageRemoteOutcome where
  | ok (imageBytes : List String)
  | err
deriving DecidableEq, Repr

/-- `geminiService.generateImage`: on success with at least one image,
returns the data-URLs (`data:<mime>;base64,<bytes>`, the MIME type
defaulting to `image/png`); on an empty result or any thrown error it
returns `none` instead of propagating. -/
def generateImage (prompt : String) (params : GenParams)
    (remote : ImageRemoteOutcome) : Option (List String) :=
  match remote with
  | .err => none
  | .ok imgs =>
    let mimeType := jsOrString params.outputMimeType "image/png"
    if imgs.length > 0 then
      some (imgs.map (fun b => "data:" ++ mimeType ++ ";base64," ++ b))
    else none

/-- The apology text persisted when image generation fails. -/
def imageApologyText : String := "Sorry, I failed to generate the image. Please try again."

/-- The guard of `handleGenerateImage`: `!genPrompt.trim() || isLoading`. -/
def genGuard (st : ViewState) : Bool :=
  jsTrim st.genPrompt == "" || st.isLoading

/-- `handleGenerateImage` from `ChatWindow.tsx`: guard, persist a user
message summarizing the request, issue the generation request built from
the panel state, then persist either an image-generation-result model
message or the fixed apology text message. -/
def handleGenerateImage (now : Nat) (remote : ImageRemoteOutcome)
    (ref : Option String) (store : Store) (st : ViewState) : SubmitOutcome :=
  if genGuard st then ⟨st, ref, store, [], [], []⟩
  else
    let userMessage : ChatMessage :=
      ⟨toString now, Author.USER,
       [MessagePart.text ("Generate image: \x22" ++ st.genPrompt ++ "\x22")]⟩
    let st1 := { st with
      isLoading := true
      showGenerationPanel := false
      messages := st.messages.filter (fun (m : ChatMessage) => m.id != "initial") ++ [userMessage] }
    let save1 := saveMessage ref now st.model store userMessage
    let params : GenParams := ⟨st.genModel, st.genAspect, st.genNumImages, none⟩
    match generateImage st.genPrompt params remote with
    | some urls =>
      let modelMessage : ChatMessage :=
        ⟨toString (now + 1), Author.MODEL,
         [MessagePart.imageGenerationResult urls st.genPrompt params]⟩
      let save2 := saveMessage save1.convRef now st.model save1.store modelMessage
      ⟨{ st1 with
          messages := st1.messages ++ [modelMessage]
          isLoading := false
          genPrompt := "" },
       save2.convRef, save2.store, save1.created ++ save2.created,
       [userMessage, modelMessage], [(st.genPrompt, params)]⟩
    | none =>
      let errorMessage : ChatMessage :=
        ⟨toString (now + 1), Author.MODEL, [MessagePart.text imageApologyText]⟩
      let save2 := saveMessage save1.convRef now st.model save1.store errorMessage
      ⟨{ st1 with
          messages := st1.messages ++ [errorMessage]
          isLoading := false
          genPrompt := "" },
       save2.convRef, save2.store, save1.created ++ save2.created,
       [userMessage, errorMessage], [(st.genPrompt, params)]⟩

/-- JS `parseInt(s, 10)` on the inputs this UI can produce: skip leading
whitespace and an optional sign, read the longest digit prefix; `none`
models `NaN` (no digits). -/
def jsParseIntDec (s : String) : Option Int :=
  let cs := s.data.dropWhile (fun c => c.isWhitespace)
  let signAndRest : Int × List Char :=
    match cs with
    | '-' :: rest => (-1, rest)
    | '+' :: rest => (1, rest)
    | _ => (1, cs)
  let ds := signAndRest.snd.takeWhile (fun c => c.isDigit)
  if ds = [] then none
  else some (signAndRest.fst * (ds.foldl (fun a c => a * 10 + (c.toNat - 48)) 0 : Nat))

/-- The `onChange` handler of the image-count input:
`setGenNumImages(parseInt(e.target.value, 10))` with no clamping. -/
def onGenNumImagesChange (st : ViewState) (value : String) : ViewState :=
  { st with genNumImages := jsParseIntDec value }

/-! ### Helper lemmas -/

theorem concatChunks_nil : concatChunks [] = "" := rfl

theorem foldl_append_eq (cs : List String) :
    ∀ a : String, List.foldl (fun x c => x ++ c) a cs = a ++ concatChunks cs := by
  induction cs with
  | nil => intro a; simp [concatChunks]
  | cons c cs ih =>
    intro a
    have hcons : concatChunks (c :: cs) = c ++ concatChunks cs := by
      show List.foldl (fun x c => x ++ c) "" (c :: cs) = _
      simp only [List.foldl_cons]
      rw [ih ("" ++ c), String.empty_append]
    simp only [List.foldl_cons]
    rw [ih (a ++ c), hcons, String.append_assoc]

theorem concatChunks_cons (c : String) (cs : List String) :
    concatChunks (c :: cs) = c ++ concatChunks cs := by
  show List.foldl (fun x c => x ++ c) "" (c :: cs) = _
  simp only [List.foldl_cons]
  rw [foldl_append_eq, String.empty_append]

theorem runStream_fullResponse_aux (mid : String) (cs : List String) :
    ∀ (fr : String) (msgs : List ChatMessage),
      (List.foldl (processChunk mid) ⟨fr, msgs⟩ cs).fullResponse = fr ++ concatChunks cs := by
  induction cs with
  | nil => intro fr msgs; simp [concatChunks]
  | cons c cs ih =>
    intro fr msgs
    simp only [List.foldl_cons, processChunk]
    rw [ih, concatChunks_cons, String.append_assoc]

theorem runStream_fullResponse (mid : String) (init : List ChatMessage) (chunks : List String) :
    (runStream mid init chunks).fullResponse = concatChunks chunks := by
  have h := runStream_fullResponse_aux mid chunks "" init
  simpa [runStream] using h

theorem runStream_messages_aux (mid : String) :
    ∀ cs : List String, cs ≠ [] →
      ∀ (fr : String) (msgs : List ChatMessage),
        (List.foldl (processChunk mid) ⟨fr, msgs⟩ cs).messages
          = msgs.map (fun m =>
              if m.id = mid
              then { m with parts := [MessagePart.text (fr ++ concatChunks cs)] }
              else m) := by
  intro cs
  induction cs with
  | nil => intro h; exact absurd rfl h
  | cons c cs ih =>
    intro _ fr msgs
    simp only [List.foldl_cons, processChunk]
    by_cases h : cs = []
    · subst h
      simp only [List.foldl_nil, concatChunks_cons, concatChunks_nil, String.append_empty]
    · rw [ih h (fr ++ c) _]
      rw [List.map_map]
      apply List.map_congr_left
      intro m _
      obtain ⟨i, a, ps⟩ := m
      by_cases hm : i = mid <;>
        simp [hm, concatChunks_cons, String.append_assoc, Function.comp]

theorem runStream_messages (mid : String) (init : List ChatMessage) (chunks : List String)
    (h : chunks ≠ []) :
    (runStream mid init chunks).messages
      = init.map (fun m =>
          if m.id = mid
          then { m with parts := [MessagePart.text (concatChunks chunks)] }
          else m) := by
  have haux := runStream_messages_aux mid chunks h "" init
  simpa [runStream] using haux

theorem foldl_wire (parts : List MessagePart) :
    ∀ acc : List WirePart,
      parts.foldl wireReduceStep acc = acc ++ parts.filterMap wireOfPart := by
  induction parts with
  | nil => intro acc; simp
  | cons p ps ih =>
    intro acc
    cases p <;> simp [wireReduceStep, wireOfPart, ih, List.filterMap_cons]

theorem jsSubstring_of_length_le (t : String) (n : Nat) (h : t.length ≤ n) :
    jsSubstring t n = t := by
  obtain ⟨l⟩ := t
  have hl : l.length ≤ n := h
  simp only [jsSubstring]
  rw [List.take_of_length_le hl]

theorem digitChar_isDigit (m : Nat) (h : m < 10) : (Nat.digitChar m).isDigit = true := by
  interval_cases m <;> rfl

theorem toDigitsCore_digits (fuel : Nat) :
    ∀ (n : Nat) (ds : List Char), (∀ c ∈ ds, c.isDigit = true) →
      ∀ c ∈ Nat.toDigitsCore 10 fuel n ds, c.isDigit = true := by
  induction fuel with
  | zero => intro n ds hds c hc; exact hds c hc
  | succ fuel ih =>
    intro n ds hds c hc
    simp only [Nat.toDigitsCore] at hc
    have hd : ∀ c ∈ Nat.digitChar (n % 10) :: ds, c.isDigit = true := by
      intro c hc2
      rcases List.mem_cons.mp hc2 with h | h
      · subst h; exact digitChar_isDigit _ (Nat.mod_lt _ (by decide))
      · exact hds c h
    split at hc
    · exact hd c hc
    · exact ih (n / 10) _ hd c hc

theorem toString_nat_ne_initial (n : Nat) : toString n ≠ "initial" := by
  intro h
  have hrepr : Nat.repr n = "initial" := h
  have hdata : Nat.toDigits 10 n = "initial".data := congrArg String.data hrepr
  have hmem : Char.ofNat 105 ∈ Nat.toDigits 10 n := by
    rw [hdata]; decide
  have hdig := toDigitsCore_digits (n + 1) n []
    (by intro c hc; cases hc) (Char.ofNat 105) hmem
  exact absurd hdig (by decide)

/-! ### Claim theorems -/

/-- C1: after the n-th fragment of the chat stream is received, every
message carrying the placeholder id has a single text part equal to the
concatenation of the first n fragments in arrival order; the stream
accumulator ends as the concatenation of all fragments; and the messages
`handleSubmit` persists are the user message followed by a final MODEL
message whose text is the concatenation of all fragments the service
yielded. -/
theorem chat_c1 (mid : String) (init : List ChatMessage) (chunks : List String) (n : Nat)
    (h1 : 1 ≤ n) (h2 : n ≤ chunks.length)
    (now : Nat) (remote : List Content → RemoteOutcome) (ref : Option String)
    (store : Store) (st : ViewState) (hg : submitGuard st = false) :
    (runStream mid init (chunks.take n)).messages
      = init.map (fun m =>
          if m.id = mid
          then { m with parts := [MessagePart.text (concatChunks (chunks.take n))] }
          else m)
    ∧ (runStream mid init chunks).fullResponse = concatChunks chunks
    ∧ (handleSubmit now remote ref store st).saved
      = [⟨toString now, Author.USER, mkUserParts st.input st.uploadedImage⟩,
         ⟨toString (now + 1), Author.MODEL,
          [MessagePart.text (concatChunks (getChatResponseStream (submitHistory now st) remote))]⟩] := by
  refine ⟨?_, runStream_fullResponse mid init chunks, ?_⟩
  · apply runStream_messages
    intro hempty
    have hlen := congrArg List.length hempty
    rw [List.length_take] at hlen
    simp only [List.length_nil] at hlen
    omega
  · simp [handleSubmit, hg, runStream_fullResponse]

/-- C1 witness at fragments `["Hel", "lo"]`, n = 1, and a concrete submit. -/
theorem chat_c1_witness :
    1 ≤ 1 ∧ 1 ≤ (["Hel", "lo"] : List String).length
    ∧ submitGuard { initialViewState with input := "hi" } = false
    ∧ ((runStream "1" [⟨"1", Author.MODEL, [MessagePart.text ""]⟩] ((["Hel", "lo"] : List String).take 1)).messages
        = ([⟨"1", Author.MODEL, [MessagePart.text ""]⟩] : List ChatMessage).map (fun m =>
            if m.id = "1"
            then { m with parts := [MessagePart.text (concatChunks ((["Hel", "lo"] : List String).take 1))] }
            else m)
      ∧ (runStream "1" [⟨"1", Author.MODEL, [MessagePart.text ""]⟩] ["Hel", "lo"]).fullResponse
        = concatChunks ["Hel", "lo"]
      ∧ (handleSubmit 0 (fun _ => RemoteOutcome.ok ["Hel", "lo"]) none []
            { initialViewState with input := "hi" }).saved
        = [⟨toString 0, Author.USER,
            mkUserParts ({ initialViewState with input := "hi" } : ViewState).input
              ({ initialViewState with input := "hi" } : ViewState).uploadedImage⟩,
           ⟨toString (0 + 1), Author.MODEL,
            [MessagePart.text (concatChunks (getChatResponseStream
              (submitHistory 0 { initialViewState with input := "hi" })
              (fun _ => RemoteOutcome.ok ["Hel", "lo"])))]⟩]) :=
  ⟨by decide, by decide, by decide,
   chat_c1 "1" [⟨"1", Author.MODEL, [MessagePart.text ""]⟩] ["Hel", "lo"] 1
     (by decide) (by decide) 0 (fun _ => RemoteOutcome.ok ["Hel", "lo"]) none []
     { initialViewState with input := "hi" } (by decide)⟩

/-- C2 counterexample: with a nonempty identifier naming no stored
conversation, the view sets the message list to the empty list, not to the
single greeting message the claim requires. -/
theorem chat_c2_counterexample :
    loadConversationView (some "missing") [] = ([], defaultChatModel)
    ∧ loadConversationView (some "missing") [] ≠ ([greetingMessage], defaultChatModel) := by
  refine ⟨rfl, ?_⟩
  decide

/-- C2 amended: on an empty (or absent) identifier the view installs the
single greeting MODEL message and the default model; on a nonempty
identifier whose conversation is absent from the store, or stored with a
type tag other than chat, it sets the message list to empty and the model
to the default. -/
theorem chat_c2_amended (cid : Option String) (store : Store) :
    (cid.getD "" = "" → loadConversationView cid store = ([greetingMessage], defaultChatModel))
    ∧ (∀ idStr, cid = some idStr → idStr ≠ "" →
        dbGetConversation store idStr = none →
        loadConversationView cid store = ([], defaultChatModel))
    ∧ (∀ idStr convo, cid = some idStr → idStr ≠ "" →
        dbGetConversation store idStr = some convo → convo.type ≠ "chat" →
        loadConversationView cid store = ([], defaultChatModel)) := by
  refine ⟨?_, ?_, ?_⟩
  · intro h; simp [loadConversationView, h]
  · intro idStr hc hne hdb; subst hc; simp [loadConversationView, hne, hdb]
  · intro idStr convo hc hne hdb ht; subst hc; simp [loadConversationView, hne, hdb, ht]

/-- C2 amended witness: the empty identifier installs the greeting. -/
theorem chat_c2_amended_witness :
    loadConversationView none [] = ([greetingMessage], defaultChatModel) :=
  (chat_c2_amended none []).1 rfl

/-- C3: migration keeps a message that has parts unchanged, turns a
missing-parts message with a string content field into exactly one text
part equal to that string, and otherwise substitutes exactly one empty
text part; the result always has parts. -/
theorem chat_c3 (msg : StoredMessage) :
    (∀ ps, msg.parts = some ps → migrateMessage msg = ⟨msg.id, msg.author, ps⟩)
    ∧ (∀ s, msg.parts = none → msg.content = some s →
        (migrateMessage msg).parts = [MessagePart.text s])
    ∧ (msg.parts = none → msg.content = none →
        (migrateMessage msg).parts = [MessagePart.text ""]) := by
  refine ⟨?_, ?_, ?_⟩
  · intro ps h; simp [migrateMessage, h]
  · intro s h1 h2; simp [migrateMessage, h1, h2]
  · intro h1 h2; simp [migrateMessage, h1, h2]

/-- C3 witness: a legacy message with scalar content "hi" migrates to a
single text part "hi". -/
theorem chat_c3_witness :
    (migrateMessage ⟨"m1", Author.USER, none, some "hi"⟩).parts = [MessagePart.text "hi"] :=
  (chat_c3 ⟨"m1", Author.USER, none, some "hi"⟩).2.1 "hi" rfl rfl

/-- C4: whenever the remote stream fails after delivering a prefix of
fragments, `getChatResponseStream` yields that prefix terminated by the
single apology fragment; the operation is a total function into fragment
lists, so no exception reaches the caller. -/
theorem chat_c4 (messages : List ChatMessage) (remote : List Content → RemoteOutcome)
    (ds : List String) (h : remote (buildContents messages) = RemoteOutcome.fail ds) :
    getChatResponseStream messages remote = ds ++ [streamApologyText] := by
  simp [getChatResponseStream, h]

/-- C4 witness: a stream failing after one fragment yields that fragment
then the apology. -/
theorem chat_c4_witness :
    (fun _ : List Content => RemoteOutcome.fail ["He"]) (buildContents []) = RemoteOutcome.fail ["He"]
    ∧ getChatResponseStream [] (fun _ => RemoteOutcome.fail ["He"]) = ["He"] ++ [streamApologyText] :=
  ⟨rfl, chat_c4 [] (fun _ => RemoteOutcome.fail ["He"]) ["He"] rfl⟩

/-- C5: when the trimmed input is empty and no image is attached, or a
request is in flight, `handleSubmit` changes nothing: same view state,
same ref, same store, no creation callback, no persisted message. -/
theorem chat_c5 (now : Nat) (remote : List Content → RemoteOutcome) (ref : Option String)
    (store : Store) (st : ViewState)
    (h : (jsTrim st.input = "" ∧ st.uploadedImage = none) ∨ st.isLoading = true) :
    handleSubmit now remote ref store st = ⟨st, ref, store, [], [], []⟩ := by
  have hg : submitGuard st = true := by
    rcases h with ⟨h1, h2⟩ | h3
    · simp [submitGuard, h1, h2]
    · simp [submitGuard, h3]
  simp [handleSubmit, hg]

/-- C5 witness: submitting the initial state (empty input, no image) is a
no-op. -/
theorem chat_c5_witness :
    ((jsTrim initialViewState.input = "" ∧ initialViewState.uploadedImage = none)
      ∨ initialViewState.isLoading = true)
    ∧ handleSubmit 0 (fun _ => RemoteOutcome.ok []) none [] initialViewState
      = ⟨initialViewState, none, [], [], [], []⟩ :=
  ⟨Or.inl ⟨by decide, rfl⟩,
   chat_c5 0 (fun _ => RemoteOutcome.ok []) none [] initialViewState (Or.inl ⟨by decide, rfl⟩)⟩

/-- C6 counterexample: a first message whose first text part is the empty
string creates a conversation titled "New Chat" (JS `||` treats the empty
string as falsy), while the claim requires the title to equal the
untruncated content, i.e. the empty string. -/
theorem chat_c6_counterexample :
    (saveMessage none 5 "gemini-2.5-flash" [] ⟨"9", Author.USER, [MessagePart.text ""]⟩).store.map
        (fun kv => kv.snd.title) = ["New Chat"]
    ∧ "New Chat" ≠ "" := by
  refine ⟨rfl, ?_⟩
  decide

/-- C6 amended: the created conversation's title equals the first text
part's content truncated to 40 characters with a trailing "..." when the
content exceeds 40 characters, else the full content; when the message has
no text part, or its first text part's content is the empty string, the
title is "New Chat". -/
theorem chat_c6_amended (ref : Option String) (now : Nat) (model : String) (store : Store)
    (m : ChatMessage) (href : ref.getD "" = "") :
    (saveMessage ref now model store m).store
      = dbAddOrUpdate store
          ⟨toString now, conversationTitle m, [toStored m], now, model, false, "chat"⟩
    ∧ (firstTextPart m.parts = none → conversationTitle m = "New Chat")
    ∧ (firstTextPart m.parts = some "" → conversationTitle m = "New Chat")
    ∧ (∀ t, firstTextPart m.parts = some t → t ≠ "" →
        conversationTitle m = (if 40 < t.length then jsSubstring t 40 ++ "..." else t)) := by
  refine ⟨by simp [saveMessage, href], ?_, ?_, ?_⟩
  · intro h
    simp only [conversationTitle, h, jsOrString]
    rfl
  · intro h
    simp only [conversationTitle, h, jsOrString]
    rfl
  · intro t h hne
    simp only [conversationTitle, h, jsOrString]
    rw [if_neg hne]
    by_cases hlen : 40 < t.length
    · rw [if_pos hlen, if_pos hlen]
    · rw [if_neg hlen, if_neg hlen, String.append_empty,
        jsSubstring_of_length_le t 40 (Nat.le_of_not_lt hlen)]

/-- C6 amended witness: first message "hello" titles the conversation
"hello". -/
theorem chat_c6_amended_witness :
    (saveMessage none 7 "m" [] ⟨"1", Author.USER, [MessagePart.text "hello"]⟩).store
      = dbAddOrUpdate []
          ⟨toString 7, conversationTitle ⟨"1", Author.USER, [MessagePart.text "hello"]⟩,
           [toStored ⟨"1", Author.USER, [MessagePart.text "hello"]⟩], 7, "m", false, "chat"⟩
    ∧ conversationTitle ⟨"1", Author.USER, [MessagePart.text "hello"]⟩
      = (if 40 < ("hello" : String).length then jsSubstring "hello" 40 ++ "..." else "hello") :=
  have h := chat_c6_amended none 7 "m" [] ⟨"1", Author.USER, [MessagePart.text "hello"]⟩ rfl
  ⟨h.1, h.2.2.2 "hello" rfl (by decide)⟩

/-- C7: the history handed to the service never contains the synthetic
greeting id "initial" (the filter removes it and the freshly generated
user-message id is a decimal numeral); and the wire translation keeps
exactly the parts with a wire image (text stays text, image becomes inline
data carrying the MIME type and base64 payload, anything else is
dropped), drops messages with no such part, and assigns role "user" to
USER-authored messages and "model" to all others. -/
theorem chat_c7 (now : Nat) (st : ViewState) (msgs : List ChatMessage) :
    (∀ m ∈ submitHistory now st, m.id ≠ "initial")
    ∧ buildContents msgs
      = (msgs.filter (fun m => m.parts.any (fun p => (wireOfPart p).isSome))).map
          (fun m => ⟨if m.author = Author.USER then "user" else "model",
                     m.parts.filterMap wireOfPart⟩) := by
  constructor
  · intro m hm
    rcases List.mem_append.mp hm with h | h
    · have hp := (List.mem_filter.mp h).2
      simpa using hp
    · have hm2 : m = ⟨toString now, Author.USER, mkUserParts st.input st.uploadedImage⟩ :=
        List.mem_singleton.mp h
      subst hm2
      exact toString_nat_ne_initial now
  · simp only [buildContents]
    have hpred : ∀ p : MessagePart, (wireOfPart p).isSome = isTextOrImagePart p := by
      intro p; cases p <;> rfl
    simp only [hpred]
    apply List.map_congr_left
    intro m _
    rw [foldl_wire]
    simp

/-- C7 witness: a concrete history and a concrete wire translation. -/
theorem chat_c7_witness :
    (⟨"0", Author.USER, mkUserParts "hi" none⟩ : ChatMessage).id ≠ "initial"
    ∧ buildContents
        [⟨"x", Author.USER,
          [MessagePart.text "hi",
           MessagePart.imageGenerationResult [] "p" ⟨"m", "1:1", some 1, none⟩]⟩,
         ⟨"y", Author.MODEL,
          [MessagePart.imageGenerationResult [] "q" ⟨"m", "1:1", some 1, none⟩]⟩]
      = [⟨"user", [WirePart.text "hi"]⟩] := by
  constructor
  · apply (chat_c7 0 { initialViewState with input := "hi" } []).1
    decide
  · rw [(chat_c7 0 initialViewState
      [⟨"x", Author.USER,
        [MessagePart.text "hi",
         MessagePart.imageGenerationResult [] "p" ⟨"m", "1:1", some 1, none⟩]⟩,
       ⟨"y", Author.MODEL,
        [MessagePart.imageGenerationResult [] "q" ⟨"m", "1:1", some 1, none⟩]⟩]).2]
    decide

/-- C8: when the remote image call throws or returns no images, the
service returns none rather than propagating, and the view then persists a
USER summary message followed by a MODEL message whose sole part is the
fixed apology text. -/
theorem chat_c8 (prompt : String) (params : GenParams) (remote : ImageRemoteOutcome)
    (h : remote = ImageRemoteOutcome.err ∨ remote = ImageRemoteOutcome.ok [])
    (now : Nat) (ref : Option String) (store : Store) (st : ViewState)
    (hg : genGuard st = false) :
    generateImage prompt params remote = none
    ∧ (handleGenerateImage now remote ref store st).saved
      = [⟨toString now, Author.USER,
          [MessagePart.text ("Generate image: \x22" ++ st.genPrompt ++ "\x22")]⟩,
         ⟨toString (now + 1), Author.MODEL, [MessagePart.text imageApologyText]⟩] := by
  have hnone : ∀ (p : String) (ps : GenParams), generateImage p ps remote = none := by
    intro p ps
    rcases h with rfl | rfl <;> simp [generateImage]
  refine ⟨hnone prompt params, ?_⟩
  simp [handleGenerateImage, hg, hnone]

/-- C8 witness: a throwing remote call at a concrete panel state. -/
theorem chat_c8_witness :
    genGuard { initialViewState with genPrompt := "a cat" } = false
    ∧ generateImage "p" ⟨"m", "1:1", some 1, none⟩ ImageRemoteOutcome.err = none
    ∧ (handleGenerateImage 0 ImageRemoteOutcome.err none []
        { initialViewState with genPrompt := "a cat" }).saved
      = [⟨toString 0, Author.USER,
          [MessagePart.text ("Generate image: \x22"
            ++ ({ initialViewState with genPrompt := "a cat" } : ViewState).genPrompt ++ "\x22")]⟩,
         ⟨toString (0 + 1), Author.MODEL, [MessagePart.text imageApologyText]⟩] :=
  have h := chat_c8 "p" ⟨"m", "1:1", some 1, none⟩ ImageRemoteOutcome.err (Or.inl rfl)
    0 none [] { initialViewState with genPrompt := "a cat" } (by decide)
  ⟨by decide, h.1, h.2⟩

/-- C9: evaluation at the failing input.  Typing "7" into the
number-of-images field stores 7 unclamped (the input's min/max attributes
are not enforced on typed values), and the generation request then issued
to the service carries numberOfImages = 7, outside the claimed 1..4 bound. -/
theorem chat_c9_eval :
    (onGenNumImagesChange { initialViewState with genPrompt := "a cat" } "7").genNumImages
      = some 7
    ∧ (handleGenerateImage 0 (ImageRemoteOutcome.ok ["B"]) none []
        (onGenNumImagesChange { initialViewState with genPrompt := "a cat" } "7")).genRequests
      = [("a cat", ⟨"imagen-3.0-generate-002", "3:4", some 7, none⟩)]
    ∧ ((handleGenerateImage 0 (ImageRemoteOutcome.ok ["B"]) none []
        (onGenNumImagesChange { initialViewState with genPrompt := "a cat" } "7")).genRequests.all
          (fun r => match r.snd.numberOfImages with
            | some k => decide (1 ≤ k) && decide (k ≤ 4)
            | none => false)) = false := by
  refine ⟨by decide, by decide, by decide⟩

/-- C10: with a truthy conversation ref whose conversation is absent from
the store, or stored with a non-chat type tag, `saveMessage` writes
nothing, signals nothing, and still returns the existing identifier. -/
theorem chat_c10 (ref : Option String) (cid : String) (now : Nat) (model : String)
    (store : Store) (message : ChatMessage) (h1 : ref = some cid) (h2 : cid ≠ "")
    (h3 : dbGetConversation store cid = none
          ∨ ∃ c, dbGetConversation store cid = some c ∧ c.type ≠ "chat") :
    saveMessage ref now model store message = ⟨ref, store, [], cid⟩ := by
  subst h1
  rcases h3 with h3 | ⟨c, hc, ht⟩
  · simp [saveMessage, h2, h3]
  · simp [saveMessage, h2, hc, ht]

/-- C10 witness: saving under a ref naming a missing conversation leaves
the empty store untouched and returns the ref's id. -/
theorem chat_c10_witness :
    ("x" : String) ≠ ""
    ∧ dbGetConversation [] "x" = none
    ∧ saveMessage (some "x") 0 "m" [] ⟨"1", Author.USER, []⟩ = ⟨some "x", [], [], "x"⟩ :=
  ⟨by decide, rfl,
   chat_c10 (some "x") "x" 0 "m" [] ⟨"1", Author.USER, []⟩ rfl (by decide) (Or.inl rfl)⟩

end GeminiSuite
